import Mathlib

/-!
Shallow embedding of `src/frontend/src/components/InterviewCoach.tsx`.

The component is a single React function component.  Its behaviour is
event-driven: UI clicks, resolution of the `getUserMedia` promise,
`dataavailable` / `stop` events of the `MediaRecorder`, the `setTimeout`
callback, and completion of the `fetch` call.  We embed it as a state
machine: `AppState` holds the React state (`isRecording`, `jobDescription`,
`loading`, `result`), the refs (`mediaRecorderRef`, `chunksRef`) and the
observable world (live recorders, armed timers, issued requests, alerts,
logical time in milliseconds).  `step` executes one event.  JS numbers in
the server response are modelled as rationals; `toFixed(1)`
is modelled exactly on rationals (round to nearest tenth, ties away from
zero toward +inf, per ECMA-262).  Byte buffers (Blob chunks) are lists of
naturals.
-/

namespace InterviewCoach

/-- `interface AnalysisResult` of the source. -/
structure AnalysisResult where
  total_words : Nat
  filler_words : Nat
  filler_ratio : ℚ
  deriving DecidableEq, Repr

/-- `interface ScoreResult` of the source. -/
structure ScoreResult where
  score : ℚ
  matched_keywords : List String
  deriving DecidableEq, Repr

/-- `interface ProcessedResult` of the source (`score` is nullable). -/
structure ProcessedResult where
  success : Bool
  transcription : String
  analysis : AnalysisResult
  score : Option ScoreResult
  feedback : List String
  deriving DecidableEq, Repr

/-- One `MediaRecorder` object created by `startRecording`, identified by a
fresh id.  `recording` is `true` while its `state === 'recording'`;
`streamLive` is `false` once `stream.getTracks().forEach(track => track.stop())`
has run. -/
structure RecorderM where
  id : Nat
  recording : Bool
  streamLive : Bool
  deriving DecidableEq, Repr

/-- A chunk of captured audio: raw bytes. -/
abbrev Chunk := List Nat

/-- The component state, refs and observable world.

* `isRecording`, `jobDescription`, `loading`, `result` are the four
  `useState` hooks.
* `mediaRecorderRef` holds the id of the recorder currently stored in
  `mediaRecorderRef.current` (if any); `chunksRef` is `chunksRef.current`.
* `sessionJobDesc` models the closure capture: the `stop` listener created
  inside `startRecording` closes over the `sendAudioToServer` (and hence the
  `jobDescription` value) of the render in which recording started.
* `recorders` is every `MediaRecorder` ever created; `pendingStarts` counts
  unresolved `getUserMedia` promises; `pendingStops` are recorders whose
  `stop` event is queued but has not yet fired; `timers` are the fire times
  of armed `setTimeout` callbacks; `requests` are the `(blob bytes, job_description)`
  payloads handed to `fetch`; `alerts` the `alert(...)` messages in order;
  `now` the time in ms; `nextId` the id supply. -/
structure AppState where
  isRecording : Bool
  jobDescription : String
  loading : Bool
  result : Option ProcessedResult
  mediaRecorderRef : Option Nat
  chunksRef : List Chunk
  sessionJobDesc : String
  recorders : List RecorderM
  pendingStarts : Nat
  pendingStops : List Nat
  timers : List Nat
  requests : List (List Nat × String)
  alerts : List String
  now : Nat
  nextId : Nat
  deriving DecidableEq, Repr

/-- The initial state: fresh component, nothing recorded. -/
def initState : AppState :=
  { isRecording := false
    jobDescription := ""
    loading := false
    result := none
    mediaRecorderRef := none
    chunksRef := []
    sessionJobDesc := ""
    recorders := []
    pendingStarts := 0
    pendingStops := []
    timers := []
    requests := []
    alerts := []
    now := 0
    nextId := 0 }

/-- The alert text of `startRecording`'s catch block. -/
def micErrorMsg : String :=
  "Error accessing microphone. Please ensure you have granted microphone permissions."

/-- The alert text of `sendAudioToServer`'s catch block. -/
def uploadErrorMsg : String := "Error processing audio. Please try again."

/-- `mediaRecorderRef.current?.state === 'recording'`. -/
def currentRecorderRecording (s : AppState) : Bool :=
  match s.mediaRecorderRef with
  | none => false
  | some i => ((s.recorders.find? (fun r => r.id = i)).map (fun r => r.recording)).getD false

/-- Mark recorder `i` inactive and stop its stream (models
`mediaRecorderRef.current.stop()` followed by stopping every track). -/
def haltRecorder (i : Nat) (rs : List RecorderM) : List RecorderM :=
  rs.map (fun r => if r.id = i then { r with recording := false, streamLive := false } else r)

/-- `stopRecording`: a no-op unless `mediaRecorderRef.current?.state === 'recording'`;
otherwise stops the recorder (which queues its `stop` event), stops the
stream tracks and sets `isRecording` to `false`. -/
def stopRecording (s : AppState) : AppState :=
  if currentRecorderRecording s then
    match s.mediaRecorderRef with
    | none => s
    | some i =>
        { s with recorders := haltRecorder i s.recorders
                 pendingStops := s.pendingStops ++ [i]
                 isRecording := false }
  else s

/-- The synchronous front of `sendAudioToServer`: `setLoading(true)`, build the
`FormData` with fields `audio` and `job_description`, issue the POST. -/
def beginUpload (s : AppState) (blob : List Nat) (jobDesc : String) : AppState :=
  { s with loading := true, requests := s.requests ++ [(blob, jobDesc)] }

/-- Outcome of `await fetch(...)` / `await response.json()`: either the
transport throws, or a response arrives with some HTTP status whose body
either parses as a `ProcessedResult` (`some`) or is not valid JSON (`none`,
making `response.json()` throw). -/
inductive FetchOutcome where
  | transportError : FetchOutcome
  | response (status : Nat) (body : Option ProcessedResult) : FetchOutcome
  deriving DecidableEq, Repr

/-- The continuation of `sendAudioToServer` after the request settles: the
try block does `setResult(await response.json())`; the catch block alerts;
the finally block does `setLoading(false)`.  No branch inspects the HTTP
status. -/
def fetchDone (s : AppState) (outcome : FetchOutcome) : AppState :=
  match outcome with
  | .transportError => { s with loading := false, alerts := s.alerts ++ [uploadErrorMsg] }
  | .response _ none => { s with loading := false, alerts := s.alerts ++ [uploadErrorMsg] }
  | .response _ (some d) => { s with result := some d, loading := false }

/-- `sendAudioToServer` run to completion with a given outcome. -/
def sendAudioToServer (s : AppState) (blob : List Nat) (jobDesc : String)
    (outcome : FetchOutcome) : AppState :=
  fetchDone (beginUpload s blob jobDesc) outcome

/-- The events driving the component.

* `clickStart` / `clickStop`: the toggle button, whose `onClick` is
  `isRecording ? stopRecording : startRecording`.
* `grantMic` / `denyMic`: one outstanding `getUserMedia` promise resolves
  (successfully or with an error caught by `startRecording`'s catch block).
* `chunk i d`: a `dataavailable` event of recorder `i` delivering bytes `d`;
  the listener pushes onto `chunksRef.current`.
* `stopEvent i`: the queued `stop` event of recorder `i` fires; the listener
  builds `new Blob(chunksRef.current)` and calls `sendAudioToServer` (whose
  synchronous part sets `loading` and issues the POST).
* `timerFire k`: the `setTimeout` callback armed as entry `k` of `timers`
  runs (only once `now` has reached its fire time); it calls `stopRecording`
  if `mediaRecorderRef.current?.state === 'recording'`.
* `advance ms`: time passes. -/
inductive Event where
  | clickStart : Event
  | grantMic : Event
  | denyMic : Event
  | chunk (recId : Nat) (data : Chunk) : Event
  | clickStop : Event
  | stopEvent (recId : Nat) : Event
  | timerFire (k : Nat) : Event
  | advance (ms : Nat) : Event
  deriving DecidableEq, Repr

/-- One event step.  Events that are not enabled in `s` leave `s` unchanged. -/
def step (s : AppState) (e : Event) : AppState :=
  match e with
  | .clickStart =>
      -- the button runs startRecording only when not recording; its body up
      -- to the first await merely leaves the getUserMedia promise pending
      if s.isRecording then s else { s with pendingStarts := s.pendingStarts + 1 }
  | .grantMic =>
      -- rest of startRecording's try block: new MediaRecorder(stream);
      -- chunksRef.current = []; add listeners (capturing jobDescription);
      -- start(); setIsRecording(true); setTimeout(..., 30000)
      if s.pendingStarts = 0 then s
      else
        { s with pendingStarts := s.pendingStarts - 1
                 recorders := s.recorders ++ [⟨s.nextId, true, true⟩]
                 mediaRecorderRef := some s.nextId
                 chunksRef := []
                 sessionJobDesc := s.jobDescription
                 isRecording := true
                 timers := s.timers ++ [s.now + 30000]
                 nextId := s.nextId + 1 }
  | .denyMic =>
      -- startRecording's catch block: console.error + alert, no state change
      if s.pendingStarts = 0 then s
      else { s with pendingStarts := s.pendingStarts - 1
                    alerts := s.alerts ++ [micErrorMsg] }
  | .chunk i d =>
      -- dataavailable listener: chunksRef.current.push(event.data)
      if ((s.recorders.find? (fun r => r.id = i)).map (fun r => r.recording)).getD false then
        { s with chunksRef := s.chunksRef ++ [d] }
      else s
  | .clickStop => if s.isRecording then stopRecording s else s
  | .stopEvent i =>
      -- stop listener: const audioBlob = new Blob(chunksRef.current, ...);
      -- sendAudioToServer(audioBlob) — synchronous part only
      if s.pendingStops.contains i then
        beginUpload { s with pendingStops := s.pendingStops.erase i }
          s.chunksRef.flatten s.sessionJobDesc
      else s
  | .timerFire k =>
      match s.timers.get? k with
      | none => s
      | some t =>
          if s.now < t then s
          else
            let s1 := { s with timers := s.timers.eraseIdx k }
            if currentRecorderRecording s1 then stopRecording s1 else s1
  | .advance ms => { s with now := s.now + ms }

/-- Run a sequence of events. -/
def execTrace (s : AppState) (es : List Event) : AppState :=
  es.foldl step s

/-! ## The rendered view

The JSX output, as a flat list of the visible elements in document order.
Only the pieces the specification talks about are distinguished. -/

/-- One visible element of the rendered output. -/
inductive ViewElem where
  | header (text : String) : ViewElem
  | jobDescInput (text : String) : ViewElem
  | recordButton (label : String) : ViewElem
  | spinner : ViewElem
  | processingMsg (text : String) : ViewElem
  | transcript (text : String) : ViewElem
  | totalWords (n : Nat) : ViewElem
  | fillerWords (n : Nat) : ViewElem
  | fillerRatio (text : String) : ViewElem
  | scoreBlock (text : String) : ViewElem
  | keywordsLine (text : String) : ViewElem
  | feedbackBlock (text : String) : ViewElem
  deriving DecidableEq, Repr

/-- `q` rounded to the nearest tenth, as a number of tenths: `⌊q * 10 + 1/2⌋`,
written out on the numerator and denominator so that it evaluates inside the
kernel.  (`roundTenths_eq` below proves the two forms equal.) -/
def roundTenths (q : ℚ) : ℤ := (20 * q.num + q.den) / (2 * q.den)

/-- `Number.toFixed(1)` on an exact rational: the integer `n` minimizing
`|n / 10 - q|`, ties toward the larger `n` (ECMA-262), printed with one
digit after the point. -/
def toFixed1 (q : ℚ) : String :=
  let n : ℤ := roundTenths q
  let m : Nat := n.natAbs
  (if n < 0 then "-" else "") ++ toString (m / 10) ++ "." ++ toString (m % 10)

/-- `q * 100` (the source's `result.analysis.filler_ratio * 100`), written
with `mkRat` so that it evaluates inside the kernel.  (`mul100_eq` below
proves it equal to `q * 100`.) -/
def mul100 (q : ℚ) : ℚ := mkRat (100 * q.num) q.den

/-- The `{result.score && ...}` block: relevance score and, when
`matched_keywords.length > 0`, the comma-joined keyword line. -/
def renderScore (sc : ScoreResult) : List ViewElem :=
  [ .scoreBlock (toFixed1 sc.score ++ "%") ]
    ++ (if sc.matched_keywords.length > 0 then
          [ .keywordsLine ("Matched Keywords: " ++ String.intercalate ", " sc.matched_keywords) ]
        else [])

/-- The `{result && ...}` block: transcript, the three analysis metrics,
the optional score section, and one feedback block per entry in order. -/
def renderResult (r : ProcessedResult) : List ViewElem :=
  [ .transcript r.transcription
  , .totalWords r.analysis.total_words
  , .fillerWords r.analysis.filler_words
  , .fillerRatio (toFixed1 (mul100 r.analysis.filler_ratio) ++ "%") ]
    ++ (match r.score with
        | none => []
        | some sc => renderScore sc)
    ++ r.feedback.map .feedbackBlock

/-- The component's JSX as a function of state: header, job-description
input, toggle button, then `{loading && ...}` and `{result && ...}`. -/
def render (s : AppState) : List ViewElem :=
  [ .header "AI Interview Coach 🎯"
  , .jobDescInput s.jobDescription
  , .recordButton (if s.isRecording then "Stop Recording" else "Start Recording (30s)") ]
    ++ (if s.loading then [ .spinner, .processingMsg "Processing your response..." ] else [])
    ++ (match s.result with
        | none => []
        | some r => renderResult r)

/-! ## Concrete sample states -/

/-- A sample server response with no score section. -/
def sampleResult : ProcessedResult :=
  ⟨true, "hello world", ⟨2, 0, mkRat 0 1⟩, none, ["Good job"]⟩

/-- A state in which an upload is in flight (`loading` true) while the result
of a previous submission is still present. -/
def loadingWithResult : AppState :=
  { initState with loading := true, result := some sampleResult }

/-- The score section of the worked example: 82.456 with two matched
keywords. -/
def sampleScore : ScoreResult := ⟨mkRat 82456 1000, ["python", "api"]⟩

/-- A displayed result carrying `sampleScore`. -/
def sampleScoredResult : ProcessedResult :=
  ⟨true, "hi", ⟨3, 1, mkRat 1 3⟩, some sampleScore, []⟩

/-- A state displaying `sampleScoredResult`. -/
def scoredState : AppState := { initState with result := some sampleScoredResult }

/-! ## Sanity lemmas for the numeric formatting helpers -/

/-- `roundTenths` is `⌊q * 10 + 1/2⌋`: round to the nearest tenth, ties
toward the larger value, as ECMA-262 specifies for `toFixed`. -/
theorem roundTenths_eq (q : ℚ) : roundTenths q = ⌊q * 10 + 1 / 2⌋ := by
  have hden : (q.den : ℚ) ≠ 0 := by exact_mod_cast q.den_nz
  have hnum : (q.num : ℚ) = q * (q.den : ℚ) := (div_eq_iff hden).mp (Rat.num_div_den q)
  have h2den : ((2 * q.den : ℕ) : ℚ) ≠ 0 := by
    rw [Nat.cast_ne_zero]
    exact Nat.mul_ne_zero two_ne_zero q.den_nz
  have h2 : q * 10 + 1 / 2 = ((20 * q.num + (q.den : ℤ) : ℤ) : ℚ) / ((2 * q.den : ℕ) : ℚ) := by
    rw [eq_div_iff h2den]
    push_cast
    rw [hnum]
    ring
  rw [h2, Rat.floor_intCast_div_natCast]
  unfold roundTenths
  push_cast
  ring_nf

/-- `mul100 q` is `q * 100`. -/
theorem mul100_eq (q : ℚ) : mul100 q = q * 100 := by
  unfold mul100
  rw [Rat.mkRat_eq_div]
  push_cast
  rw [show (100 : ℚ) * (q.num : ℚ) / (q.den : ℚ) = (q.num : ℚ) / (q.den : ℚ) * 100 by ring,
    Rat.num_div_den]

/-! ## C1: the finalized blob is the ordered concatenation of the chunks -/

/-- Delivering a list of chunks to a recorder that is recording appends them,
in delivery order, to `chunksRef`; nothing else changes. -/
theorem chunk_trace (cs : List Chunk) (s : AppState) (i : Nat)
    (h : ((s.recorders.find? (fun r => r.id = i)).map (fun r => r.recording)).getD false = true) :
    execTrace s (cs.map (Event.chunk i)) = { s with chunksRef := s.chunksRef ++ cs } := by
  induction cs generalizing s with
  | nil => simp [execTrace]
  | cons c rest ih =>
      have hstep : step s (Event.chunk i c) = { s with chunksRef := s.chunksRef ++ [c] } := by
        simp [step, h]
      have hrec : execTrace s ((c :: rest).map (Event.chunk i))
          = execTrace (step s (Event.chunk i c)) (rest.map (Event.chunk i)) := rfl
      rw [hrec, hstep, ih { s with chunksRef := s.chunksRef ++ [c] } h]
      simp

/-- Splitting a trace. -/
theorem execTrace_append (s : AppState) (a b : List Event) :
    execTrace s (a ++ b) = execTrace (execTrace s a) b := by
  simp [execTrace]

/-- C1: for every sequence of delivered chunks in one recording session, the
blob finalized on stop is the concatenation of the chunks in delivery order,
and exactly that blob (with the session's job description) is handed to the
uploader as the single issued request. -/
theorem c1_finalized_blob_is_ordered_concat (cs : List Chunk) (jd : String) :
    (execTrace { initState with jobDescription := jd }
        ([Event.clickStart, Event.grantMic] ++ cs.map (Event.chunk 0)
          ++ [Event.clickStop, Event.stopEvent 0])).requests
      = [(cs.flatten, jd)] := by
  rw [execTrace_append, execTrace_append,
    chunk_trace cs
      (execTrace { initState with jobDescription := jd } [Event.clickStart, Event.grantMic]) 0 rfl]
  rfl

/-! ## C2, C6, C9: the upload completion paths -/

/-- C2: when the transport throws before a response is obtained, the user is
alerted, the previously displayed result is left unchanged, and the loading
flag is cleared. -/
theorem c2_transport_failure_notifies_and_preserves_result
    (s : AppState) (blob : List Nat) (jd : String) :
    (sendAudioToServer s blob jd FetchOutcome.transportError).result = s.result ∧
    (sendAudioToServer s blob jd FetchOutcome.transportError).loading = false ∧
    (sendAudioToServer s blob jd FetchOutcome.transportError).alerts
      = s.alerts ++ [uploadErrorMsg] :=
  ⟨rfl, rfl, rfl⟩

/-- C6: on any HTTP response whose body parses, regardless of the status
code, the parsed body replaces the current result wholesale and the loading
flag is cleared. -/
theorem c6_response_replaces_result_wholesale
    (s : AppState) (blob : List Nat) (jd : String) (status : Nat) (d : ProcessedResult) :
    (sendAudioToServer s blob jd (FetchOutcome.response status (some d))).result = some d ∧
    (sendAudioToServer s blob jd (FetchOutcome.response status (some d))).loading = false ∧
    (sendAudioToServer s blob jd (FetchOutcome.response status (some d))).alerts = s.alerts :=
  ⟨rfl, rfl, rfl⟩

/-- C9: a response whose body is not valid JSON takes exactly the transport
failure path: the user is alerted, the previous result is untouched (the
malformed body is never installed), and loading is cleared. -/
theorem c9_malformed_body_takes_failure_path
    (s : AppState) (blob : List Nat) (jd : String) (status : Nat) :
    sendAudioToServer s blob jd (FetchOutcome.response status none)
        = sendAudioToServer s blob jd FetchOutcome.transportError ∧
    (sendAudioToServer s blob jd (FetchOutcome.response status none)).result = s.result ∧
    (sendAudioToServer s blob jd (FetchOutcome.response status none)).loading = false ∧
    (sendAudioToServer s blob jd (FetchOutcome.response status none)).alerts
      = s.alerts ++ [uploadErrorMsg] :=
  ⟨rfl, rfl, rfl, rfl⟩

/-! ## C3: the 30-second timer is not cancelled by a manual stop

`startRecording` arms `setTimeout(..., 30000)` and no code path ever calls
`clearTimeout`.  The callback reads `mediaRecorderRef.current` at fire time,
so a timer armed by an earlier session can stop a later one.  Trace: session
A starts at t = 0 and is stopped manually at t = 10000; session B starts at
t = 20000; A's timer fires at t = 30000 and finds B's recorder (the current
ref) recording, so it invokes `stopRecording`, terminating B after only
10 seconds. -/

/-- C3: the stale deadline timer of a manually stopped session stops a
subsequent session early (first two conjuncts); had the stale timer had no
effect, the second session would still be recording at t = 30000 (third
conjunct, the same trace without the timer callback). -/
theorem c3_stale_timer_stops_next_session :
    (execTrace initState
        [Event.clickStart, Event.grantMic, Event.advance 10000, Event.clickStop,
         Event.advance 10000, Event.clickStart, Event.grantMic, Event.advance 10000,
         Event.timerFire 0]).isRecording = false ∧
    ((execTrace initState
        [Event.clickStart, Event.grantMic, Event.advance 10000, Event.clickStop,
         Event.advance 10000, Event.clickStart, Event.grantMic, Event.advance 10000,
         Event.timerFire 0]).recorders.find? (fun r => r.id = 1)).map (fun r => r.recording)
      = some false ∧
    (execTrace initState
        [Event.clickStart, Event.grantMic, Event.advance 10000, Event.clickStop,
         Event.advance 10000, Event.clickStart, Event.grantMic, Event.advance 10000]).isRecording
      = true :=
  ⟨rfl, rfl, rfl⟩

/-! ## C8: two live recorders are reachable

The toggle button dispatches `startRecording` whenever `isRecording` is
false, and `setIsRecording(true)` only runs after `await getUserMedia`
resolves.  Two clicks during the pending permission prompt therefore run
`startRecording` twice; both grants create and start a `MediaRecorder`, and
only the second is retained in `mediaRecorderRef`. -/

/-- C8: after start is clicked twice while the permission prompt is pending
and both requests are granted, two recorders are simultaneously capturing
with live microphone streams, violating the at-most-one-session invariant;
the first is no longer referenced by `mediaRecorderRef`. -/
theorem c8_two_live_recording_sessions_reachable :
    ((execTrace initState
        [Event.clickStart, Event.clickStart, Event.grantMic, Event.grantMic]).recorders.filter
        (fun r => r.recording && r.streamLive)).length = 2 ∧
    (execTrace initState
        [Event.clickStart, Event.clickStart, Event.grantMic, Event.grantMic]).mediaRecorderRef
      = some 1 :=
  ⟨rfl, rfl⟩

/-! ## C4: the result is NOT suppressed while loading

The JSX renders `{loading && <spinner/message>}` and `{result && <result/>}`
independently; there is no `!loading` guard on the result block. -/

/-- C4 counterexample: in a state with `loading` true and a previous result
present, the rendered output contains the result content (here its
transcript), so the claim that result display is suppressed while loading is
false at this state. -/
theorem c4_counterexample_result_shown_while_loading :
    loadingWithResult.loading = true ∧
    ViewElem.transcript "hello world" ∈ render loadingWithResult :=
  ⟨rfl, by decide⟩

/-- C4 amended: whenever `loading` is true the output shows the spinner and
the processing message, but a result from a previous submission, if present,
is still rendered below them (not suppressed). -/
theorem c4_loading_shows_spinner_and_message (s : AppState) (h : s.loading = true) :
    ViewElem.spinner ∈ render s ∧
    ViewElem.processingMsg "Processing your response..." ∈ render s ∧
    (∀ r : ProcessedResult, s.result = some r →
      ViewElem.transcript r.transcription ∈ render s) := by
  refine ⟨?_, ?_, ?_⟩
  · simp [render, h]
  · simp [render, h]
  · intro r hr
    simp [render, h, hr, renderResult]

/-- C4 witness: the amended statement at `loadingWithResult`. -/
theorem c4_loading_shows_spinner_and_message_witness :
    ViewElem.spinner ∈ render loadingWithResult ∧
    ViewElem.processingMsg "Processing your response..." ∈ render loadingWithResult ∧
    (∀ r : ProcessedResult, loadingWithResult.result = some r →
      ViewElem.transcript r.transcription ∈ render loadingWithResult) :=
  c4_loading_shows_spinner_and_message loadingWithResult rfl

/-! ## C5: a failed microphone acquisition changes nothing but an alert -/

/-- C5: when the component is not recording and a start attempt fails at
`getUserMedia` (permission refused or no device), the resulting state is the
old state with only the alert appended: the recording flag is still false,
no chunk buffer was created, and result, loading and job description are
exactly as before. -/
theorem c5_denied_start_leaves_state_unchanged (s : AppState) (h : s.isRecording = false) :
    execTrace s [Event.clickStart, Event.denyMic]
        = { s with alerts := s.alerts ++ [micErrorMsg] } ∧
    (execTrace s [Event.clickStart, Event.denyMic]).isRecording = false := by
  have h1 : step s Event.clickStart = { s with pendingStarts := s.pendingStarts + 1 } := by
    simp [step, h]
  have h2 : step { s with pendingStarts := s.pendingStarts + 1 } Event.denyMic
      = { s with alerts := s.alerts ++ [micErrorMsg] } := by
    simp [step]
  have hE : execTrace s [Event.clickStart, Event.denyMic]
      = { s with alerts := s.alerts ++ [micErrorMsg] } := by
    show step (step s Event.clickStart) Event.denyMic = _
    rw [h1, h2]
  exact ⟨hE, by rw [hE]; exact h⟩

/-- C5 witness: the statement at the initial state. -/
theorem c5_denied_start_leaves_state_unchanged_witness :
    execTrace initState [Event.clickStart, Event.denyMic]
        = { initState with alerts := initState.alerts ++ [micErrorMsg] } ∧
    (execTrace initState [Event.clickStart, Event.denyMic]).isRecording = false :=
  c5_denied_start_leaves_state_unchanged initState rfl

/-! ## C7: rendering of the score section -/

/-- C7: whenever the displayed result carries a score section, the output
contains the score formatted by `toFixed1` with a percent sign; the
"Matched Keywords: " line, comma-joined, appears exactly when
`matched_keywords` is non-empty, and is omitted entirely when it is empty. -/
theorem c7_score_section_render (s : AppState) (r : ProcessedResult) (sc : ScoreResult)
    (hr : s.result = some r) (hs : r.score = some sc) :
    ViewElem.scoreBlock (toFixed1 sc.score ++ "%") ∈ render s ∧
    (sc.matched_keywords ≠ [] →
      ViewElem.keywordsLine
          ("Matched Keywords: " ++ String.intercalate ", " sc.matched_keywords) ∈ render s) ∧
    (sc.matched_keywords = [] → ∀ t, ViewElem.keywordsLine t ∉ render s) := by
  refine ⟨?_, ?_, ?_⟩
  · simp [render, hr, renderResult, hs, renderScore]
  · intro hne
    have hlen : 0 < sc.matched_keywords.length := List.length_pos.mpr hne
    simp [render, hr, renderResult, hs, renderScore, hlen]
  · intro hemp t
    simp [render, hr, renderResult, hs, renderScore, hemp]

/-- C7 witness: at `scoredState` (score 82.456, keywords `["python", "api"]`)
the rendered output contains the score block "82.5%" and the line
"Matched Keywords: python, api". -/
theorem c7_score_section_render_witness :
    toFixed1 (mkRat 82456 1000) = "82.5" ∧
    ViewElem.scoreBlock (toFixed1 sampleScore.score ++ "%") ∈ render scoredState ∧
    ViewElem.keywordsLine
        ("Matched Keywords: " ++ String.intercalate ", " sampleScore.matched_keywords)
      ∈ render scoredState :=
  ⟨by decide,
    (c7_score_section_render scoredState sampleScoredResult sampleScore rfl rfl).1,
    (c7_score_section_render scoredState sampleScoredResult sampleScore rfl rfl).2.1
      (by decide)⟩

/-! ## C10: stopRecording only touches the recording state -/

/-- C10: `stopRecording` leaves the displayed result, the loading flag, the
job description, the chunk buffer, the armed timers, the alerts, the issued
requests and the recorder ref unchanged — it touches only the recording
flag, the recorder/stream and the queued stop event — and when the current
recorder is not recording it changes nothing at all. -/
theorem c10_stop_recording_frame (s : AppState) :
    (stopRecording s).result = s.result ∧
    (stopRecording s).loading = s.loading ∧
    (stopRecording s).jobDescription = s.jobDescription ∧
    (stopRecording s).chunksRef = s.chunksRef ∧
    (stopRecording s).sessionJobDesc = s.sessionJobDesc ∧
    (stopRecording s).alerts = s.alerts ∧
    (stopRecording s).requests = s.requests ∧
    (stopRecording s).timers = s.timers ∧
    (stopRecording s).mediaRecorderRef = s.mediaRecorderRef ∧
    (currentRecorderRecording s = false → stopRecording s = s) := by
  rcases hm : s.mediaRecorderRef with _ | i
  · have hc : currentRecorderRecording s = false := by
      simp [currentRecorderRecording, hm]
    simp [stopRecording, hc, hm]
  · by_cases hc : currentRecorderRecording s
    · simp [stopRecording, hc, hm]
    · simp only [Bool.not_eq_true] at hc
      simp [stopRecording, hc, hm]

/-- C10 witness: at the initial state (no recorder), `stopRecording` is a
no-op. -/
theorem c10_stop_recording_frame_witness :
    stopRecording initState = initState ∧
    (stopRecording initState).result = initState.result :=
  ⟨(c10_stop_recording_frame initState).2.2.2.2.2.2.2.2.2 rfl,
    (c10_stop_recording_frame initState).1⟩

end InterviewCoach
